import Mathlib

/-!
Verification of the Paris-trees open-data adapter
(`src/mcp_arbres_paris.py`) against its specification.

Shallow embedding notes:
* The adapter is straight-line code: build a query-parameter mapping,
  perform one HTTP GET through `make_api_request`, and format the parsed
  JSON into text.  Each tool is embedded as a total Lean function whose
  extra argument is the outcome of the Gateway call
  (`Except PyErr (ApiResponse _)`), standing for the awaited
  `make_api_request` result: `.error e` models a raised exception caught
  by the tool body, `.ok r` the parsed JSON response.
* Record values are interpolated into f-strings by the Python code; the
  embedding stores each field value as the text Python would interpolate
  for it, with `none` modelling an absent key (the `dict.get` default
  paths).  `geo_point_2d` is kept as a nested optional structure;
  `none` covers both an absent key and an empty (falsy) sub-dict, which
  the source treats identically at every use site.
* Float arguments (`latitude`, `longitude`) are passed as the text of
  their Python rendering (`repr`), since the code only ever interpolates
  them; the `:.6f` format spec applied at two sites is embedded by
  `fixed6` over that decimal text (exact whenever the value has at most
  six fractional digits, which covers every verified input).
* Integer f-string format specs are embedded exactly: `{n:,}` by
  `commaFmt` (thousands grouping) and `{i:2d}` by `pad2`.
-/

/-- Module-level constants of the source file. -/
def BASE_URL : String := "https://opendata.paris.fr/api/explore/v2.1"

/-- Dataset identifier constant. -/
def DATASET_ID : String := "les-arbres"

/-- Default page size constant. -/
def DEFAULT_LIMIT : Int := 20

/-- Maximum page size constant. -/
def MAX_LIMIT : Int := 100

/-- A query-parameter value: the Python params dicts hold ints and strings. -/
inductive QP where
  | int (n : Int) : QP
  | str (s : String) : QP
deriving DecidableEq, Repr

/-- A raised Python exception as observed by the handlers:
`str(e)` and `type(e).__name__`. -/
structure PyErr where
  msg : String
  tyName : String

/-- Parsed JSON body of a records query, after the `result.get` defaults
of the source are applied: `total_count` defaults to 0 and `results`
to the empty list when the keys are absent. -/
structure ApiResponse (α : Type) where
  total_count : Int
  results : List α

/-- Nested `geo_point_2d` value; `lat` and `lon` are the rendered texts
of the coordinate numbers, `none` when the key is absent. -/
structure GeoPoint where
  lat : Option String
  lon : Option String
deriving DecidableEq, Repr

/-- One tree record, restricted to the keys the source reads.  Each value
is the text Python would interpolate for it; `none` models an absent key.
`geo_point_2d = none` also covers an empty (falsy) sub-dict, which every
use site treats like an absent key. -/
structure TreeRecord where
  libellefrancais : Option String
  genre : Option String
  hauteurenm : Option String
  circonferenceencm : Option String
  arrondissement : Option String
  adresse : Option String
  stadedeveloppement : Option String
  remarquable : Option String
  geo_point_2d : Option GeoPoint
deriving DecidableEq, Repr

/-- A record of a group-by aggregation response: `groupValue` is the value
under the grouped field name (`group_by`, or `arrondissement` in the
species tool), `tree_count` the aggregated count. -/
structure StatRecord where
  groupValue : Option String
  tree_count : Option Int
deriving DecidableEq, Repr

/-- Field descriptor of the dataset-metadata response. -/
structure DatasetField where
  name : Option String
  type : Option String
  label : Option String

/-- Dataset-metadata response, after the chained `.get(..., \x7b\x7d)`
defaults of the source are applied (`dataset`, `metas`, `default`). -/
structure DatasetPayload where
  title : Option String
  description : Option String
  records_count : Option Int
  fields : List DatasetField

/-- Python `x or default` for an optional string: falsy (absent or empty)
values are replaced by the default. -/
def pyOrS (v : Option String) (d : String) : String :=
  match v with
  | some s => if s = "" then d else s
  | none => d

/-- Python `x or default` for an optional integer: falsy (absent or zero)
values are replaced by the default. -/
def pyOrI (v : Option Int) (d : Int) : Int :=
  match v with
  | some n => if n = 0 then d else n
  | none => d

/-- Insert a comma after every three characters of a reversed digit list:
helper for the `\x7bn:,\x7d` format spec. -/
def commaSepRev : List Char → List Char
  | c1 :: c2 :: c3 :: c4 :: rest => c1 :: c2 :: c3 :: ',' :: commaSepRev (c4 :: rest)
  | l => l

/-- Python `f"\x7bn:,\x7d"` on an int: decimal digits grouped in threes by
commas, with a leading minus sign for negative values. -/
def commaFmt (n : Int) : String :=
  (if n < 0 then "-" else "")
    ++ String.mk (commaSepRev (toString n.natAbs).data.reverse).reverse

/-- Python `f"\x7bi:2d\x7d"`: right-align in a field of width two. -/
def pad2 (i : Nat) : String :=
  let s := toString i
  if s.length < 2 then " " ++ s else s

/-- Python `f"\x7bx:.6f\x7d"` over the decimal text of the value: pad the
fractional part with zeros to six digits (truncating beyond six; the
binary rounding of a Python float with more than six fractional digits
is not modelled, and no verified input has more). -/
def fixed6 (s : String) : String :=
  match s.splitOn "." with
  | [intPart] => intPart ++ ".000000"
  | [intPart, frac] =>
      if frac.length ≤ 6 then
        intPart ++ "." ++ frac ++ String.mk (List.replicate (6 - frac.length) '0')
      else intPart ++ "." ++ (frac.take 6)
  | _ => s

/-- Emit an optional string query parameter only when the Python truthiness
test `if value:` passes: absent and empty values are omitted entirely. -/
def optStrParam (k : String) (v : Option String) : List (String × QP) :=
  match v with
  | some s => if s = "" then [] else [(k, QP.str s)]
  | none => []

/-- One outbound HTTP GET as issued by the Gateway. -/
structure HttpGet where
  url : String
  params : List (String × QP)
  timeoutSeconds : Nat

/-- Abstract outcome of the transport layer for one request: either an
HTTP response (status, body text, and the JSON parse of the body, `none`
when the body is not valid JSON) or a transport-level failure. -/
inductive Transport (α : Type) where
  | response (status : Nat) (body : String) (json : Option α) : Transport α
  | unreachable (msg : String) : Transport α

/-- Errors the Gateway can raise: `httpx.HTTPStatusError` from
`raise_for_status` (carrying the status and body), a transport error from
the client, or a JSON decoding error from `response.json()`. -/
inductive ApiError where
  | httpStatusError (status : Nat) (body : String) : ApiError
  | connectError (msg : String) : ApiError
  | jsonDecodeError : ApiError
deriving DecidableEq, Repr

/-- `make_api_request`: one GET to `BASE_URL ++ endpoint` with the given
params and a 30-second timeout.  Returns the list of requests issued
(always a singleton: no retries) together with the outcome:
`raise_for_status` raises for any status outside 2xx, then
`response.json()` raises when the body is not valid JSON. -/
def make_api_request {α : Type} (endpoint : String) (params : List (String × QP))
    (t : Transport α) : List HttpGet × Except ApiError α :=
  let req : HttpGet := { url := BASE_URL ++ endpoint, params := params, timeoutSeconds := 30 }
  ([req],
    match t with
    | Transport.unreachable m => Except.error (ApiError.connectError m)
    | Transport.response st body js =>
        if 200 ≤ st ∧ st ≤ 299 then
          match js with
          | some j => Except.ok j
          | none => Except.error ApiError.jsonDecodeError
        else Except.error (ApiError.httpStatusError st body))

/-- Python `str.lower()`, embedded as a character map (the status tokens
compared in the source are ASCII, where Python lowercasing and a
per-character map agree). -/
def pyLower (s : String) : String :=
  String.mk (s.data.map Char.toLower)

/-- The remarkable test of `search_trees`: truthiness of the value fetched
with default `""`, then case-insensitive comparison with `"oui"`. -/
def search_trees_remarkable (v : Option String) : Bool :=
  let remarquable := v.getD ""
  (!(remarquable == "")) && (pyLower remarquable == "oui")

/-- The remarkable test of `find_trees_near_location`:
`record.get("remarquable", "").lower() == "oui"`. -/
def near_location_remarkable (v : Option String) : Bool :=
  pyLower (v.getD "") == "oui"

/-- The remarkable test of `get_tree_species_info`:
`tree.get("remarquable", "").lower() == "oui"`. -/
def species_info_remarkable (v : Option String) : Bool :=
  pyLower (v.getD "") == "oui"

/-- Names of the functions registered with the tool decorator, in source
order. -/
def registeredTools : List String :=
  ["get_dataset_info", "search_trees", "get_tree_statistics",
   "find_trees_near_location", "find_remarkable_trees", "get_tree_species_info"]

/-- Modelled from the spec: the five tool names the specification says are
the only exposed operations. -/
def spec_listed_tools : List String :=
  ["get_dataset_info", "search_trees", "get_tree_statistics",
   "find_trees_near_location", "get_tree_species_info"]

/-- Field line of `get_dataset_info`. -/
def dataset_field_line (f : DatasetField) : String :=
  "  - " ++ f.name.getD "N/A" ++ " (" ++ f.type.getD "N/A" ++ "): " ++ f.label.getD "N/A"

/-- `get_dataset_info` tool body, as a function of the Gateway outcome. -/
def get_dataset_info (gw : Except PyErr DatasetPayload) : String :=
  match gw with
  | Except.error e => "Error fetching dataset info: " ++ e.msg
  | Except.ok dataset =>
      let title := pyOrS dataset.title "N/A"
      let description := pyOrS dataset.description "N/A"
      let records_count := pyOrI dataset.records_count 0
      let fields_text := String.intercalate "\n" ((dataset.fields.take 15).map dataset_field_line)
      "Paris Trees Dataset Information:\n        \nTitle: " ++ title
        ++ "\nTotal Records: " ++ commaFmt records_count
        ++ "\n\nDescription: " ++ description
        ++ "\n\nAvailable Fields:\n" ++ fields_text
        ++ "\n... and more fields available.\n"

/-- Query-parameter mapping built by `search_trees`, in dict insertion
order: `limit` clamped with `min`, then `offset`, then the optional
parameters added only when truthy. -/
def search_trees_params (wh : Option String) (limit offset : Int)
    (sel ob : Option String) : List (String × QP) :=
  [("limit", QP.int (min limit MAX_LIMIT)), ("offset", QP.int offset)]
    ++ optStrParam "where" wh ++ optStrParam "select" sel ++ optStrParam "order_by" ob

/-- The `tree_info` line list of one record in `search_trees`: eight
unconditional field lines, a remarkable line only when the flag test
passes, and a coordinates line only when `geo_point_2d` is truthy and has
both `lat` and `lon` keys. -/
def search_tree_info_lines (i : Nat) (r : TreeRecord) : List String :=
  ["\n" ++ toString i ++ ". Tree Information:",
   "   Species: " ++ r.libellefrancais.getD "Unknown",
   "   Genus: " ++ r.genre.getD "N/A",
   "   Height: " ++ r.hauteurenm.getD "N/A" ++ " m",
   "   Circumference: " ++ r.circonferenceencm.getD "N/A" ++ " cm",
   "   District: " ++ r.arrondissement.getD "N/A",
   "   Address: " ++ r.adresse.getD "N/A",
   "   Stage of Development: " ++ r.stadedeveloppement.getD "N/A"]
  ++ (if search_trees_remarkable r.remarquable
      then ["   🌟 Remarkable Tree: Yes (heritage tree)"] else [])
  ++ (match r.geo_point_2d with
      | some coords =>
          match coords.lat, coords.lon with
          | some la, some lo => ["   Coordinates: " ++ fixed6 la ++ ", " ++ fixed6 lo]
          | _, _ => []
      | none => [])

/-- The `output` list built by `search_trees` on a non-error, non-empty
response: header, one joined block per record, and the pagination hint
exactly when `total_count > offset + len(records)`.  The hint uses the
raw `limit` argument, not the clamped transmitted value. -/
def search_trees_chunks (limit offset total_count : Int)
    (records : List TreeRecord) : List String :=
  ("Found " ++ commaFmt total_count ++ " trees total. Showing "
      ++ toString records.length ++ " results (offset: " ++ toString offset ++ "):\n")
    :: (List.enumFrom 1 records).map (fun p => String.intercalate "\n" (search_tree_info_lines p.1 p.2))
    ++ (if total_count > offset + (records.length : Int) then
          ["\n📄 Use offset=" ++ toString (offset + limit) ++ " to see more results."]
        else [])

/-- `search_trees` tool body, as a function of its arguments and the
Gateway outcome. -/
def search_trees (wh : Option String) (limit offset : Int) (sel ob : Option String)
    (gw : Except PyErr (ApiResponse TreeRecord)) : String :=
  match gw with
  | Except.error e =>
      "Error searching trees: " ++ e.msg ++ "\nDebug info: " ++ e.tyName
  | Except.ok result =>
      if result.results.isEmpty then "No trees found matching your criteria."
      else String.intercalate "\n" (search_trees_chunks limit offset result.total_count result.results)

/-- Query-parameter mapping built by `get_tree_statistics`: note the
`limit` value is transmitted without clamping. -/
def get_tree_statistics_params (group_by : String) (wh : Option String)
    (limit : Int) : List (String × QP) :=
  [("select", QP.str (group_by ++ ", count(*) as tree_count")),
   ("group_by", QP.str group_by),
   ("limit", QP.int limit),
   ("order_by", QP.str "tree_count DESC")]
    ++ optStrParam "where" wh

/-- The `output` list built by `get_tree_statistics` on a non-empty
response: header, one numbered line per group, and the total line summing
`tree_count` (default 0) over the returned records only. -/
def get_tree_statistics_chunks (group_by : String) (records : List StatRecord) : List String :=
  ("Statistics grouped by \x27" ++ group_by ++ "\x27:\n")
    :: (List.enumFrom 1 records).map (fun p =>
        pad2 p.1 ++ ". " ++ p.2.groupValue.getD "Unknown" ++ ": "
          ++ commaFmt (p.2.tree_count.getD 0) ++ " trees")
    ++ ["\nTotal in these groups: "
          ++ commaFmt ((records.map (fun r => r.tree_count.getD 0)).sum) ++ " trees"]

/-- `get_tree_statistics` tool body. -/
def get_tree_statistics (group_by : String) (wh : Option String) (limit : Int)
    (gw : Except PyErr (ApiResponse StatRecord)) : String :=
  match gw with
  | Except.error e => "Error getting statistics: " ++ e.msg
  | Except.ok result =>
      if result.results.isEmpty then
        "No statistics found for grouping by \x27" ++ group_by ++ "\x27."
      else String.intercalate "\n" (get_tree_statistics_chunks group_by result.results)

/-- Query-parameter mapping built by `find_trees_near_location`:
`latitude` and `longitude` are the rendered texts of the float arguments
as interpolated into the distance expressions. -/
def find_trees_near_location_params (latitude longitude : String)
    (distance_meters limit : Int) : List (String × QP) :=
  [("where", QP.str ("distance(geo_point_2d, geom\x27POINT(" ++ longitude ++ " "
      ++ latitude ++ ")\x27, " ++ toString distance_meters ++ "m)")),
   ("limit", QP.int (min limit MAX_LIMIT)),
   ("order_by", QP.str ("distance(geo_point_2d, geom\x27POINT(" ++ longitude ++ " "
      ++ latitude ++ ")\x27) ASC"))]

/-- One record block of `find_trees_near_location`: a single multi-line
string; the coordinates line is always present, with the `"N/A"` defaults
substituted for absent keys. -/
def near_tree_block (i : Nat) (r : TreeRecord) : String :=
  let coords := r.geo_point_2d.getD { lat := none, lon := none }
  let la := coords.lat.getD "N/A"
  let lo := coords.lon.getD "N/A"
  let remarquable_status :=
    if near_location_remarkable r.remarquable then "🌟 (Remarkable)" else ""
  ("\n" ++ toString i ++ ". " ++ r.libellefrancais.getD "Unknown" ++ " " ++ remarquable_status
    ++ "\n   Height: " ++ r.hauteurenm.getD "N/A" ++ " m"
    ++ "\n   Address: " ++ r.adresse.getD "N/A"
    ++ "\n   District: " ++ r.arrondissement.getD "N/A")
    ++ ("\n   Coordinates: " ++ (la ++ (", " ++ lo)))

/-- `find_trees_near_location` tool body. -/
def find_trees_near_location (latitude longitude : String)
    (distance_meters limit : Int)
    (gw : Except PyErr (ApiResponse TreeRecord)) : String :=
  match gw with
  | Except.error e => "Error finding nearby trees: " ++ e.msg
  | Except.ok result =>
      if result.results.isEmpty then
        "No trees found within " ++ toString distance_meters
          ++ "m of coordinates (" ++ latitude ++ ", " ++ longitude ++ ")."
      else
        String.intercalate "\n"
          (("Found " ++ toString result.results.length ++ " trees within "
              ++ toString distance_meters ++ "m of (" ++ fixed6 latitude ++ ", "
              ++ fixed6 longitude ++ "):\n")
            :: (List.enumFrom 1 result.results).map (fun p => near_tree_block p.1 p.2))

/-- WHERE clause built by `find_remarkable_trees`. -/
def find_remarkable_trees_where (arrondissement : Option String) : String :=
  "remarquable=\x27OUI\x27"
    ++ (match arrondissement with
        | some a => if a = "" then "" else " AND arrondissement=\x27" ++ a ++ "\x27"
        | none => "")

/-- Query-parameter mapping built by `find_remarkable_trees`. -/
def find_remarkable_trees_params (arrondissement : Option String)
    (limit : Int) : List (String × QP) :=
  [("where", QP.str (find_remarkable_trees_where arrondissement)),
   ("limit", QP.int (min limit MAX_LIMIT)),
   ("order_by", QP.str "hauteurenm DESC")]

/-- The chunks appended for one record of `find_remarkable_trees`: the
detail block, then a separate coordinates chunk only when `geo_point_2d`
is truthy. -/
def remarkable_tree_chunks (i : Nat) (r : TreeRecord) : List String :=
  ("\n" ++ toString i ++ ". " ++ r.libellefrancais.getD "Unknown" ++ " 🌟"
      ++ "\n   Height: " ++ r.hauteurenm.getD "N/A" ++ " m"
      ++ "\n   Circumference: " ++ r.circonferenceencm.getD "N/A" ++ " cm"
      ++ "\n   Address: " ++ r.adresse.getD "N/A"
      ++ "\n   District: " ++ r.arrondissement.getD "N/A"
      ++ "\n   Stage: " ++ r.stadedeveloppement.getD "N/A")
    :: (match r.geo_point_2d with
        | some coords =>
            ["   Coordinates: " ++ coords.lat.getD "N/A" ++ ", " ++ coords.lon.getD "N/A"]
        | none => [])

/-- `find_remarkable_trees` tool body. -/
def find_remarkable_trees (limit : Int) (arrondissement : Option String)
    (gw : Except PyErr (ApiResponse TreeRecord)) : String :=
  match gw with
  | Except.error e => "Error finding remarkable trees: " ++ e.msg
  | Except.ok result =>
      if result.results.isEmpty then "No remarkable trees found matching your criteria."
      else
        String.intercalate "\n"
          (["🌟 Found " ++ commaFmt result.total_count ++ " remarkable trees in Paris",
            "Showing " ++ toString result.results.length ++ " results:\n"]
            ++ ((List.enumFrom 1 result.results).map (fun p => remarkable_tree_chunks p.1 p.2)).flatten
            ++ (if result.total_count > (result.results.length : Int) then
                  ["\n📄 " ++ toString (result.total_count - (result.results.length : Int))
                    ++ " more remarkable trees available."]
                else []))

/-- Parameters of the first (group-by-district) query of
`get_tree_species_info`; the `limit` is the fixed literal 20. -/
def get_tree_species_info_params1 (species_name : String) : List (String × QP) :=
  [("where", QP.str ("libellefrancais=\x27" ++ species_name ++ "\x27")),
   ("select", QP.str "arrondissement, count(*) as tree_count"),
   ("group_by", QP.str "arrondissement"),
   ("limit", QP.int 20),
   ("order_by", QP.str "tree_count DESC")]

/-- Parameters of the second (tallest-examples) query of
`get_tree_species_info`; the `limit` is the fixed literal 5. -/
def get_tree_species_info_params2 (species_name : String) : List (String × QP) :=
  [("where", QP.str ("libellefrancais=\x27" ++ species_name ++ "\x27")),
   ("limit", QP.int 5),
   ("order_by", QP.str "hauteurenm DESC")]

/-- District-distribution line of `get_tree_species_info`. -/
def species_stat_line (s : StatRecord) : String :=
  "  - " ++ s.groupValue.getD "Unknown" ++ ": " ++ commaFmt (s.tree_count.getD 0) ++ " trees"

/-- Tallest-example block of `get_tree_species_info`. -/
def species_example_block (i : Nat) (t : TreeRecord) : String :=
  let remarquable_indicator := if species_info_remarkable t.remarquable then " 🌟" else ""
  "\n  " ++ toString i ++ ". Height: " ++ t.hauteurenm.getD "N/A" ++ " m" ++ remarquable_indicator
    ++ "\n     Location: " ++ t.adresse.getD "N/A"
    ++ "\n     District: " ++ t.arrondissement.getD "N/A"
    ++ "\n     Circumference: " ++ t.circonferenceencm.getD "N/A" ++ " cm"

/-- `get_tree_species_info` tool body: the two Gateway outcomes are the
two sequential queries; an exception in either is caught by the single
handler. -/
def get_tree_species_info (species_name : String)
    (gw1 : Except PyErr (ApiResponse StatRecord))
    (gw2 : Except PyErr (ApiResponse TreeRecord)) : String :=
  match gw1 with
  | Except.error e => "Error getting species info: " ++ e.msg
  | Except.ok stats_result =>
      match gw2 with
      | Except.error e => "Error getting species info: " ++ e.msg
      | Except.ok examples_result =>
          let stats := stats_result.results
          let examples := examples_result.results
          if stats.isEmpty && examples.isEmpty then
            "No trees found for species \x27" ++ species_name ++ "\x27. Please check the spelling."
          else
            let total_count := (stats.map (fun s => s.tree_count.getD 0)).sum
            String.intercalate "\n"
              (["Information about \x27" ++ species_name ++ "\x27 in Paris:\n",
                "Total count: " ++ commaFmt total_count ++ " trees\n"]
                ++ (if stats.isEmpty then []
                    else "Distribution by district:" :: (stats.take 10).map species_stat_line)
                ++ (if examples.isEmpty then []
                    else "\nTallest examples:"
                          :: (List.enumFrom 1 examples).map (fun p => species_example_block p.1 p.2)))

/-! ## Concrete fixture records shared by several witnesses -/

/-- A record with every key absent. -/
def rEmpty : TreeRecord :=
  { libellefrancais := none, genre := none, hauteurenm := none,
    circonferenceencm := none, arrondissement := none, adresse := none,
    stadedeveloppement := none, remarquable := none, geo_point_2d := none }

/-- A record with every scalar key present but no `geo_point_2d`. -/
def rFull : TreeRecord :=
  { libellefrancais := some "Platane", genre := some "Platanus",
    hauteurenm := some "30", circonferenceencm := some "150",
    arrondissement := some "PARIS 1ER ARR", adresse := some "QUAI DE SEINE",
    stadedeveloppement := some "A", remarquable := some "OUI",
    geo_point_2d := none }

/-! ## Helper lemmas -/

/-- Appending on the right preserves the `"Error "` prefix. -/
theorem err_append (a b : String) :
    (∃ c, a = "Error " ++ c) → ∃ c, a ++ b = "Error " ++ c := by
  rintro ⟨c, rfl⟩
  exact ⟨c ++ b, String.append_assoc _ _ _⟩

/-- The truthiness guard of the `search_trees` remarkable test is
redundant: the flag is the lower-cased comparison alone. -/
theorem search_trees_remarkable_eq (s : String) :
    search_trees_remarkable (some s) = (pyLower s == "oui") := by
  by_cases h : s = ""
  · subst h; decide
  · have hb : (s == "") = false := beq_eq_false_iff_ne.mpr h
    simp [search_trees_remarkable, hb]

/-! ## C1 -/

/-- C1 counterexample: `get_tree_statistics` transmits a caller-supplied
`limit` of 101 unclamped, so the transmitted `limit` is not 100. -/
theorem c1_stats_limit_unclamped :
    (get_tree_statistics_params "arrondissement" none 101).lookup "limit"
      = some (QP.int 101)
    ∧ QP.int 101 ≠ QP.int 100 := by
  exact ⟨rfl, by decide⟩

/-- C1 amended: `search_trees`, `find_trees_near_location` and
`find_remarkable_trees` clamp a caller-supplied `limit` above 100 down to
100 in the transmitted parameters, but `get_tree_statistics` transmits
the caller-supplied value unclamped. -/
theorem c1_limit_clamping_amended :
    ∀ (limit : Int), limit > 100 →
      ∀ (wh sel ob arr : Option String) (offset dist : Int) (gb la lo : String),
        (search_trees_params wh limit offset sel ob).lookup "limit" = some (QP.int 100)
        ∧ (find_trees_near_location_params la lo dist limit).lookup "limit" = some (QP.int 100)
        ∧ (find_remarkable_trees_params arr limit).lookup "limit" = some (QP.int 100)
        ∧ (get_tree_statistics_params gb wh limit).lookup "limit" = some (QP.int limit) := by
  intro limit h wh sel ob arr offset dist gb la lo
  have hmax : MAX_LIMIT = (100 : Int) := rfl
  have hmin : min limit MAX_LIMIT = (100 : Int) := by
    rw [hmax]; exact min_eq_right (by omega)
  refine ⟨?_, ?_, ?_, ?_⟩
  · simp only [search_trees_params, hmin]; rfl
  · simp only [find_trees_near_location_params, hmin]; rfl
  · simp only [find_remarkable_trees_params, hmin]; rfl
  · rfl

/-- C1 amended witness at `limit = 150`. -/
theorem c1_limit_clamping_amended_witness :
    (150 : Int) > 100
    ∧ (search_trees_params none 150 0 none none).lookup "limit" = some (QP.int 100)
    ∧ (get_tree_statistics_params "genre" none 150).lookup "limit" = some (QP.int 150) := by
  have h := c1_limit_clamping_amended 150 (by norm_num) none none none none 0 500 "genre" "48.85" "2.35"
  exact ⟨by norm_num, h.1, h.2.2.2⟩

/-! ## C3 -/

/-- C3 counterexample: the source registers six tools with the tool
decorator, not the five the specification lists; `find_remarkable_trees`
is registered but absent from the listed five. -/
theorem c3_five_tools_false :
    registeredTools ≠ spec_listed_tools
    ∧ "find_remarkable_trees" ∈ registeredTools
    ∧ "find_remarkable_trees" ∉ spec_listed_tools
    ∧ registeredTools.length = 6 := by
  refine ⟨by decide, by decide, by decide, rfl⟩

/-- C3 amended: the adapter exposes exactly six named tool operations:
the five the specification lists plus `find_remarkable_trees`. -/
theorem c3_six_tools :
    registeredTools.length = 6
    ∧ registeredTools.Nodup
    ∧ (∀ t, t ∈ registeredTools ↔ (t ∈ spec_listed_tools ∨ t = "find_remarkable_trees")) := by
  refine ⟨rfl, by decide, ?_⟩
  intro t
  simp only [registeredTools, spec_listed_tools, List.mem_cons, List.not_mem_nil, or_false]
  tauto

/-! ## C4 -/

/-- C4: every record-querying tool maps an empty `results` array to its
single fixed no-results sentence; in particular the two end-to-end
instances of the specification hold exactly (the float arguments 48.8584
and 2.2945 are interpolated by Python as the texts given here). -/
theorem c4_empty_results_messages :
    (∀ (la lo : String) (d l tc : Int),
      find_trees_near_location la lo d l (Except.ok ⟨tc, []⟩)
        = "No trees found within " ++ toString d ++ "m of coordinates ("
            ++ la ++ ", " ++ lo ++ ").")
    ∧ find_trees_near_location "48.8584" "2.2945" 0 1 (Except.ok ⟨0, []⟩)
        = "No trees found within 0m of coordinates (48.8584, 2.2945)."
    ∧ (∀ (name : String) (tc1 tc2 : Int),
      get_tree_species_info name (Except.ok ⟨tc1, []⟩) (Except.ok ⟨tc2, []⟩)
        = "No trees found for species \x27" ++ name ++ "\x27. Please check the spelling.")
    ∧ get_tree_species_info "Platane" (Except.ok ⟨0, []⟩) (Except.ok ⟨0, []⟩)
        = "No trees found for species \x27Platane\x27. Please check the spelling."
    ∧ (∀ (wh sel ob : Option String) (limit offset tc : Int),
      search_trees wh limit offset sel ob (Except.ok ⟨tc, []⟩)
        = "No trees found matching your criteria.")
    ∧ (∀ (gb : String) (wh : Option String) (limit tc : Int),
      get_tree_statistics gb wh limit (Except.ok ⟨tc, []⟩)
        = "No statistics found for grouping by \x27" ++ gb ++ "\x27.")
    ∧ (∀ (limit : Int) (arr : Option String) (tc : Int),
      find_remarkable_trees limit arr (Except.ok ⟨tc, []⟩)
        = "No remarkable trees found matching your criteria.") := by
  refine ⟨fun la lo d l tc => rfl, rfl, fun name tc1 tc2 => rfl, rfl,
    fun wh sel ob limit offset tc => rfl, fun gb wh limit tc => rfl,
    fun limit arr tc => rfl⟩

/-! ## C5 -/

/-- C5: for a non-empty group list, the final chunk of the
`get_tree_statistics` report is the total line whose value is the
arithmetic sum of the returned `tree_count` values (0 for an absent
count), and the report does not depend on the upstream `total_count`. -/
theorem c5_statistics_total :
    ∀ (gb : String) (wh : Option String) (limit tc tc2 : Int)
      (r : StatRecord) (rs : List StatRecord),
      (get_tree_statistics_chunks gb (r :: rs)).getLast?
        = some ("\nTotal in these groups: "
            ++ commaFmt (((r :: rs).map (fun x => x.tree_count.getD 0)).sum) ++ " trees")
      ∧ get_tree_statistics gb wh limit (Except.ok ⟨tc, r :: rs⟩)
          = get_tree_statistics gb wh limit (Except.ok ⟨tc2, r :: rs⟩)
      ∧ get_tree_statistics gb wh limit (Except.ok ⟨tc, r :: rs⟩)
          = String.intercalate "\n" (get_tree_statistics_chunks gb (r :: rs)) := by
  intro gb wh limit tc tc2 r rs
  refine ⟨?_, rfl, rfl⟩
  exact List.getLast?_concat _

/-! ## C2 -/

/-- C2: every tool converts a Gateway exception into a returned string
that begins with `"Error "`; no exception propagates (the embedded tools
are total functions returning a string on every input).  Both sequential
Gateway calls of `get_tree_species_info` are covered. -/
theorem c2_error_string_prefix :
    ∀ (e : PyErr) (wh sel ob arr : Option String) (limit offset dist : Int)
      (gb name la lo : String) (resp1 : ApiResponse StatRecord)
      (gw2 : Except PyErr (ApiResponse TreeRecord)),
      (∃ r, get_dataset_info (Except.error e) = "Error " ++ r)
      ∧ (∃ r, search_trees wh limit offset sel ob (Except.error e) = "Error " ++ r)
      ∧ (∃ r, get_tree_statistics gb wh limit (Except.error e) = "Error " ++ r)
      ∧ (∃ r, find_trees_near_location la lo dist limit (Except.error e) = "Error " ++ r)
      ∧ (∃ r, find_remarkable_trees limit arr (Except.error e) = "Error " ++ r)
      ∧ (∃ r, get_tree_species_info name (Except.error e) gw2 = "Error " ++ r)
      ∧ (∃ r, get_tree_species_info name (Except.ok resp1) (Except.error e) = "Error " ++ r) := by
  intro e wh sel ob arr limit offset dist gb name la lo resp1 gw2
  refine ⟨?_, ?_, ?_, ?_, ?_, ?_, ?_⟩
  · exact err_append _ _ ⟨"fetching dataset info: ", rfl⟩
  · exact err_append _ _ (err_append _ _ (err_append _ _ ⟨"searching trees: ", rfl⟩))
  · exact err_append _ _ ⟨"getting statistics: ", rfl⟩
  · exact err_append _ _ ⟨"finding nearby trees: ", rfl⟩
  · exact err_append _ _ ⟨"finding remarkable trees: ", rfl⟩
  · exact err_append _ _ ⟨"getting species info: ", rfl⟩
  · exact err_append _ _ ⟨"getting species info: ", rfl⟩

/-! ## C6 -/

/-- C6: on a successful `search_trees` call with a non-empty results
list, the first chunk is the header reporting the upstream total, the
number shown and the offset; the pagination-hint chunk is appended
exactly when `total_count > offset + len(records)` (witnessed by the
chunk count and by the last chunk under the condition). -/
theorem c6_search_header_and_hint :
    ∀ (wh sel ob : Option String) (limit offset tc : Int)
      (r : TreeRecord) (rs : List TreeRecord),
      (search_trees_chunks limit offset tc (r :: rs)).head?
        = some ("Found " ++ commaFmt tc ++ " trees total. Showing "
            ++ toString (r :: rs).length ++ " results (offset: " ++ toString offset ++ "):\n")
      ∧ (search_trees_chunks limit offset tc (r :: rs)).length
          = 1 + (r :: rs).length
              + (if tc > offset + ((r :: rs).length : Int) then 1 else 0)
      ∧ (tc > offset + ((r :: rs).length : Int) →
          (search_trees_chunks limit offset tc (r :: rs)).getLast?
            = some ("\n📄 Use offset=" ++ toString (offset + limit) ++ " to see more results."))
      ∧ search_trees wh limit offset sel ob (Except.ok ⟨tc, r :: rs⟩)
          = String.intercalate "\n" (search_trees_chunks limit offset tc (r :: rs)) := by
  intro wh sel ob limit offset tc r rs
  refine ⟨rfl, ?_, ?_, rfl⟩
  · unfold search_trees_chunks
    by_cases hc : tc > offset + ((r :: rs).length : Int)
    · rw [if_pos hc, if_pos hc]
      simp only [List.length_cons, List.length_append, List.length_map,
        List.enumFrom_length, List.length_nil]
      omega
    · rw [if_neg hc, if_neg hc]
      simp only [List.length_cons, List.length_append, List.length_map,
        List.enumFrom_length, List.length_nil]
      omega
  · intro hc
    unfold search_trees_chunks
    rw [if_pos hc]
    exact List.getLast?_concat _

/-- C6 witness: the end-to-end scenario of the specification, with a
fixture of five records and `total_count = 120` at offset 0 and limit 5. -/
theorem c6_search_header_and_hint_witness :
    (120 : Int) > 0 + ((rEmpty :: List.replicate 4 rEmpty).length : Int)
    ∧ (search_trees_chunks 5 0 120 (rEmpty :: List.replicate 4 rEmpty)).head?
        = some "Found 120 trees total. Showing 5 results (offset: 0):\n"
    ∧ (search_trees_chunks 5 0 120 (rEmpty :: List.replicate 4 rEmpty)).getLast?
        = some "\n📄 Use offset=5 to see more results." := by
  have h := c6_search_header_and_hint (some "hauteurenm > 25") none none 5 0 120
    rEmpty (List.replicate 4 rEmpty)
  refine ⟨by norm_num, ?_, ?_⟩
  · rw [h.1]; decide
  · rw [h.2.2.1 (by norm_num)]; decide

/-! ## C7 -/

/-- C7 counterexample: for a record whose `geo_point_2d` key is absent,
`search_trees` omits the coordinates line entirely instead of rendering a
placeholder line, falsifying the claim for the coordinates field. -/
theorem c7_missing_field_line_omitted :
    rFull.geo_point_2d = none
    ∧ search_tree_info_lines 1 rFull =
        ["\n1. Tree Information:",
         "   Species: Platane",
         "   Genus: Platanus",
         "   Height: 30 m",
         "   Circumference: 150 cm",
         "   District: PARIS 1ER ARR",
         "   Address: QUAI DE SEINE",
         "   Stage of Development: A",
         "   🌟 Remarkable Tree: Yes (heritage tree)"]
    ∧ "   Coordinates: N/A, N/A" ∉ search_tree_info_lines 1 rFull
    ∧ (∀ l ∈ search_tree_info_lines 1 rFull, ¬ "   Coordinates:".data <+: l.data) := by
  refine ⟨rfl, by decide, by decide, by decide⟩

/-- C7 amended: the seven scalar fields always render their fixed
placeholder lines when absent and the line is never omitted; the
remarkable and coordinates lines of `search_trees` are instead omitted
when the underlying data is absent (the line list has exactly the eight
field lines), while `find_trees_near_location` always renders the
coordinates line, with `N/A` placeholders for absent coordinates. -/
theorem c7_placeholders_amended :
    ∀ (i : Nat) (r : TreeRecord),
      (r.libellefrancais = none → "   Species: Unknown" ∈ search_tree_info_lines i r)
      ∧ (r.genre = none → "   Genus: N/A" ∈ search_tree_info_lines i r)
      ∧ (r.hauteurenm = none → "   Height: N/A m" ∈ search_tree_info_lines i r)
      ∧ (r.circonferenceencm = none → "   Circumference: N/A cm" ∈ search_tree_info_lines i r)
      ∧ (r.arrondissement = none → "   District: N/A" ∈ search_tree_info_lines i r)
      ∧ (r.adresse = none → "   Address: N/A" ∈ search_tree_info_lines i r)
      ∧ (r.stadedeveloppement = none → "   Stage of Development: N/A" ∈ search_tree_info_lines i r)
      ∧ (r.geo_point_2d = none → r.remarquable = none →
          (search_tree_info_lines i r).length = 8)
      ∧ (r.geo_point_2d = none →
          ∃ pre, near_tree_block i r = pre ++ "\n   Coordinates: N/A, N/A") := by
  intro i r
  refine ⟨fun h => ?_, fun h => ?_, fun h => ?_, fun h => ?_, fun h => ?_, fun h => ?_,
    fun h => ?_, fun h h2 => ?_, fun h => ?_⟩
  · simp [search_tree_info_lines, h]
  · simp [search_tree_info_lines, h]
  · simp [search_tree_info_lines, h]
  · simp [search_tree_info_lines, h]
  · simp [search_tree_info_lines, h]
  · simp [search_tree_info_lines, h]
  · simp [search_tree_info_lines, h]
  · simp [search_tree_info_lines, h, h2, search_trees_remarkable]
  · refine ⟨"\n" ++ toString i ++ ". " ++ r.libellefrancais.getD "Unknown" ++ " "
      ++ (if near_location_remarkable r.remarquable then "🌟 (Remarkable)" else "")
      ++ "\n   Height: " ++ r.hauteurenm.getD "N/A" ++ " m"
      ++ "\n   Address: " ++ r.adresse.getD "N/A"
      ++ "\n   District: " ++ r.arrondissement.getD "N/A", ?_⟩
    simp only [near_tree_block]
    rw [h]
    rfl

/-- C7 amended witness: the all-absent record. -/
theorem c7_placeholders_amended_witness :
    rEmpty.hauteurenm = none
    ∧ "   Height: N/A m" ∈ search_tree_info_lines 1 rEmpty
    ∧ (search_tree_info_lines 1 rEmpty).length = 8
    ∧ (∃ pre, near_tree_block 1 rEmpty = pre ++ "\n   Coordinates: N/A, N/A") := by
  have h := c7_placeholders_amended 1 rEmpty
  exact ⟨rfl, h.2.2.1 rfl, h.2.2.2.2.2.2.2.1 rfl rfl, h.2.2.2.2.2.2.2.2 rfl⟩

/-! ## C8 -/

/-- C8: the remarkable-flag decision of every tool that renders the flag
depends only on the lower-cased status token compared with `"oui"`: two
values with the same lower-casing (i.e. differing only in letter casing)
are flagged identically, and the literal token is accepted in any casing. -/
theorem c8_remarkable_case_insensitive :
    (∀ (s1 s2 : String), pyLower s1 = pyLower s2 →
      search_trees_remarkable (some s1) = search_trees_remarkable (some s2)
      ∧ near_location_remarkable (some s1) = near_location_remarkable (some s2)
      ∧ species_info_remarkable (some s1) = species_info_remarkable (some s2))
    ∧ search_trees_remarkable (some "OUI") = true
    ∧ search_trees_remarkable (some "Oui") = true
    ∧ near_location_remarkable (some "oUi") = true
    ∧ species_info_remarkable (some "OUI") = true
    ∧ search_trees_remarkable (some "NON") = false := by
  refine ⟨?_, by decide, by decide, by decide, by decide, by decide⟩
  intro s1 s2 h
  refine ⟨?_, ?_, ?_⟩
  · rw [search_trees_remarkable_eq, search_trees_remarkable_eq, h]
  · simp [near_location_remarkable, h]
  · simp [species_info_remarkable, h]

/-- C8 witness: `"OUI"` and `"oui"` differ only in casing and are flagged
identically by `search_trees`. -/
theorem c8_remarkable_case_insensitive_witness :
    pyLower "OUI" = pyLower "oui"
    ∧ search_trees_remarkable (some "OUI") = search_trees_remarkable (some "oui") := by
  exact ⟨by decide, (c8_remarkable_case_insensitive.1 "OUI" "oui" (by decide)).1⟩

/-! ## C9 -/

/-- C9: `make_api_request` issues exactly one GET (fixed URL prefix, the
given params, 30-second timeout, no retries); any response status outside
2xx yields an error carrying the status and body, and a 2xx response
whose body is not valid JSON yields the JSON-decoding error; a transport
failure yields a connection error. -/
theorem c9_gateway_single_request :
    ∀ (α : Type) (endpoint : String) (params : List (String × QP)) (t : Transport α),
      (make_api_request endpoint params t).1
          = [{ url := BASE_URL ++ endpoint, params := params, timeoutSeconds := 30 }]
      ∧ ((make_api_request endpoint params t).1).length = 1
      ∧ (∀ (st : Nat) (body : String) (js : Option α),
          t = Transport.response st body js →
          (¬ (200 ≤ st ∧ st ≤ 299) →
            (make_api_request endpoint params t).2
              = Except.error (ApiError.httpStatusError st body))
          ∧ ((200 ≤ st ∧ st ≤ 299) → js = none →
            (make_api_request endpoint params t).2 = Except.error ApiError.jsonDecodeError))
      ∧ (∀ (m : String), t = Transport.unreachable m →
          (make_api_request endpoint params t).2 = Except.error (ApiError.connectError m)) := by
  intro α endpoint params t
  refine ⟨rfl, rfl, ?_, ?_⟩
  · intro st body js ht
    subst ht
    constructor
    · intro hns
      simp [make_api_request, hns]
    · intro hs hj
      subst hj
      simp [make_api_request, hs]
  · intro m hm
    subst hm
    rfl

/-- C9 witness: a 404 raises the status error; a 200 with an unparseable
body raises the JSON-decoding error. -/
theorem c9_gateway_single_request_witness :
    ¬ ((200 : Nat) ≤ 404 ∧ (404 : Nat) ≤ 299)
    ∧ (make_api_request "/catalog/datasets/les-arbres" []
        (Transport.response 404 "not found" (none : Option Nat))).2
        = Except.error (ApiError.httpStatusError 404 "not found")
    ∧ ((200 : Nat) ≤ 200 ∧ (200 : Nat) ≤ 299)
    ∧ (make_api_request "/catalog/datasets/les-arbres/records" []
        (Transport.response 200 "oops" (none : Option Nat))).2
        = Except.error ApiError.jsonDecodeError := by
  have h1 := c9_gateway_single_request Nat "/catalog/datasets/les-arbres" []
    (Transport.response 404 "not found" none)
  have h2 := c9_gateway_single_request Nat "/catalog/datasets/les-arbres/records" []
    (Transport.response 200 "oops" none)
  exact ⟨by decide, (h1.2.2.1 404 "not found" none rfl).1 (by decide),
    by decide, (h2.2.2.1 200 "oops" none rfl).2 (by decide) rfl⟩

/-! ## C10 -/

/-- C10: the pagination hint of `search_trees` suggests
`offset + limit` with the raw caller-supplied limit, while the
transmitted page size is clamped to 100; hence for `limit > 100` the
suggested next offset exceeds `offset + 100`, skipping records. -/
theorem c10_hint_offset_unclamped :
    ∀ (limit offset tc : Int) (records : List TreeRecord),
      limit > 100 →
      tc > offset + (records.length : Int) →
      (search_trees_chunks limit offset tc records).getLast?
        = some ("\n📄 Use offset=" ++ toString (offset + limit) ++ " to see more results.")
      ∧ offset + limit > offset + 100
      ∧ (search_trees_params none limit offset none none).lookup "limit" = some (QP.int 100) := by
  intro limit offset tc records h1 h2
  refine ⟨?_, by omega, ?_⟩
  · unfold search_trees_chunks
    rw [if_pos h2]
    exact List.getLast?_concat _
  · have hmin : min limit MAX_LIMIT = (100 : Int) := by
      rw [show MAX_LIMIT = (100 : Int) from rfl]
      exact min_eq_right (by omega)
    simp only [search_trees_params, hmin]
    rfl

/-- C10 witness at `limit = 150`, `offset = 0`, `total_count = 300`. -/
theorem c10_hint_offset_unclamped_witness :
    (150 : Int) > 100
    ∧ (300 : Int) > 0 + (([] : List TreeRecord).length : Int)
    ∧ (search_trees_chunks 150 0 300 []).getLast?
        = some "\n📄 Use offset=150 to see more results."
    ∧ (0 : Int) + 150 > 0 + 100 := by
  have h := c10_hint_offset_unclamped 150 0 300 [] (by norm_num) (by norm_num)
  refine ⟨by norm_num, by norm_num, ?_, h.2.1⟩
  rw [h.1]
  decide
